import Mathlib

/-!
Shallow embedding of `invenio-administration` (files
`invenio_administration/admin.py` and `invenio_administration/views/base.py`).

Python strings are `String`, Python `None`-able strings are `Option String`
(`none` = Python `None`), Python dicts of search options/facets are
association lists `List (String × String)`, and code that can `raise` is
modelled in `Except PyExc`.
-/

deriving instance DecidableEq for Except

/-- ASCII lower-casing of one character (Python `str.lower` on the ASCII
names this code handles). -/
def pyLowerChar (c : Char) : Char :=
  if 65 ≤ c.toNat ∧ c.toNat ≤ 90 then Char.ofNat (c.toNat + 32) else c

/-- Python `str.lower` (ASCII). -/
def pyLower (s : String) : String := ⟨s.data.map pyLowerChar⟩

/-- ASCII upper-casing of one character (Python `str.upper`). -/
def pyUpperChar (c : Char) : Char :=
  if 97 ≤ c.toNat ∧ c.toNat ≤ 122 then Char.ofNat (c.toNat - 32) else c

/-- Python `str.upper` (ASCII). -/
def pyUpper (s : String) : String := ⟨s.data.map pyUpperChar⟩

/-- Python `s.startswith(pre)`. -/
def pyStartsWith (s pre : String) : Bool := pre.data.isPrefixOf s.data

/-- Python truthiness of an optional string: `None` and `""` are falsy. -/
def strTruthy : Option String → Bool
  | none => false
  | some s => !s.data.isEmpty

/-- Python `"%s" % x` / f-string rendering of an optional string:
`None` prints as `"None"`. -/
def pyStr : Option String → String
  | none => "None"
  | some s => s

/-- Exceptions raised by the embedded code.  Constructors keep the data that
the corresponding `raise` sites in the source interpolate into messages. -/
inductive PyExc where
  /-- `Exception` from `AdminBaseView.__init__`: "Cannot instantiate
  administration view <class> without a default GET view". -/
  | noGetView (className : String)
  /-- `Exception` from `AdminResourceBaseView.__init__`: "Cannot instanciate
  resource view <class> without an associated flask extension.". -/
  | noExtension (className : String)
  /-- `Exception` from `AdminResourceBaseView.__init__`: "Cannot instanciate
  resource view <class> without a resource.". -/
  | noResourceConfig (className : String)
  /-- `InvalidResource(resource=..., view=...)` raised by
  `AdminResourceBaseView._get_resource`. -/
  | invalidResource (resource : String) (view : String)
  /-- `AttributeError`, e.g. attribute access on `None`. -/
  | attributeError (attr : String)
  /-- `KeyError` from a dict lookup (`current_app.extensions` /
  `current_app.config` / the API URL map). -/
  | keyError (key : String)
  /-- `TypeError`, e.g. `getattr` with a non-string attribute name. -/
  | typeError (msg : String)
deriving DecidableEq, Repr

/-- The slice of the `Administration` registry a view reads through its
`administration` back-reference (`admin.py`): `self.endpoint`
(`ui_endpoint or "administration"`), `self.url` (`url or "/administration"`)
and `self.base_template`. -/
structure Admin where
  endpoint : String
  url : String
  base_template : String
deriving DecidableEq, Repr

/-- Class-level attributes of an `AdminBaseView` subclass, as read by
`AdminBaseView.__init__` before any instance attribute is set
(`base.py` lines 30-40).  `hasGet` is whether `self.get` is not `None`;
`className` is `cls.__name__`. -/
structure ViewClassAttrs where
  _extension : Option String
  name : Option String
  category : Option String
  endpoint : Option String
  url : Option String
  hasGet : Bool
  className : String
deriving DecidableEq, Repr

/-- The instance attributes an `AdminBaseView.__init__` call leaves behind. -/
structure ViewInstance where
  _extension : Option String
  name : Option String
  category : Option String
  administration : Option Admin
  endpoint : Option String
  url : String
  className : String
deriving DecidableEq, Repr

/-- The `if self.<attr> is None: self.<attr> = <arg>` pattern of
`AdminBaseView.__init__` (`base.py` 52-59): the class-level value wins
when it is not `None`. -/
def resolveAttr (clsVal argVal : Option String) : Option String :=
  match clsVal with
  | none => argVal
  | some v => some v

namespace AdminBaseView

/-- `AdminBaseView._get_endpoint` (`base.py` 88-97).
`name` is `self.name` as already resolved by `__init__`, `clsEndpoint` is the
class-level `self.endpoint` at call time, `endpointArg` is the argument.
Note the source returns `None` (falls off the end) when the argument is
falsy and the class-level endpoint is truthy; `self.name.lower()` on a
`None` name is an `AttributeError`. -/
def _get_endpoint (name : Option String) (clsEndpoint : Option String)
    (endpointArg : Option String) : Except PyExc (Option String) :=
  if strTruthy endpointArg then
    .ok endpointArg
  else if !strTruthy clsEndpoint then
    match name with
    | none => .error (.attributeError "NoneType has no attribute lower")
    | some n => .ok (some (pyLower n))
  else
    .ok none

/-- `AdminBaseView._get_view_url` (`base.py` 99-110).
`adminArg` is `self.administration`; `isDashboard` is the value of
`isinstance(self, self.administration.dashboard_view_class)` (evaluated only
when `self.administration` is not `None`, else `AttributeError`);
`endpoint` is the already-set `self.endpoint`; `url` is the argument
(`__init__` passes the class-level `self.url`). -/
def _get_view_url (adminArg : Option Admin) (isDashboard : Bool)
    (endpoint : Option String) (url : Option String) : Except PyExc String :=
  match url with
  | none =>
    match adminArg with
    | none => .error (.attributeError "NoneType has no attribute dashboard_view_class")
    | some _ => if isDashboard then .ok "/" else .ok ("/" ++ pyStr endpoint)
  | some u =>
    if pyStartsWith u "/" then .ok u
    else
      match adminArg with
      | none => .error (.attributeError "NoneType has no attribute url")
      | some a => .ok (a.url ++ "/" ++ u)

/-- `AdminBaseView.__init__` (`base.py` 42-72).  Resolves `_extension`,
`name`, `category` (class attribute wins when not `None`), stores the
`admin` back-reference, then `self.endpoint = self._get_endpoint(endpoint)`,
then `self.url = url or self._get_view_url(self.url)` — i.e. a truthy `url`
argument is taken verbatim and `_get_view_url` is only called (on the
class-level `url`) when the argument is falsy — and finally raises when
`self.get is None`. -/
def init (cls : ViewClassAttrs) (isDashboard : Bool)
    (nameArg categoryArg endpointArg urlArg extensionArg : Option String)
    (adminArg : Option Admin) : Except PyExc ViewInstance :=
  let ext := resolveAttr cls._extension extensionArg
  let name := resolveAttr cls.name nameArg
  let category := resolveAttr cls.category categoryArg
  match _get_endpoint name cls.endpoint endpointArg with
  | .error e => .error e
  | .ok endpoint =>
    match (if strTruthy urlArg then .ok (urlArg.getD "")
           else _get_view_url adminArg isDashboard endpoint cls.url :
           Except PyExc String) with
    | .error e => .error e
    | .ok url =>
      if cls.hasGet then
        .ok { _extension := ext, name := name, category := category,
              administration := adminArg, endpoint := endpoint, url := url,
              className := cls.className }
      else
        .error (.noGetView cls.className)

/-- `AdminBaseView.endpoint_location_name` (`base.py` 74-79). -/
def endpoint_location_name (inst : ViewInstance) : Option String :=
  match inst.administration with
  | none => inst.endpoint
  | some a => some (a.endpoint ++ "." ++ pyStr inst.endpoint)

end AdminBaseView

/-- A concrete registry slice matching `Administration.__init__` defaults
(`admin.py` 48-55). -/
def adminDefault : Admin :=
  { endpoint := "administration", url := "/administration",
    base_template := "invenio_administration/base.html" }

/-- Sanity: default endpoint resolution lower-cases the name. -/
theorem sanity_endpoint_default :
    AdminBaseView._get_endpoint (some "MyView") none none =
      Except.ok (some "myview") := by decide

/-- Sanity: a view with no class url and no url argument is mounted at
`/<endpoint>`. -/
theorem sanity_view_url_default :
    AdminBaseView._get_view_url (some adminDefault) false (some "records") none =
      Except.ok "/records" := by decide

/-- Sanity: a relative class-level url is resolved under the registry url. -/
theorem sanity_view_url_relative :
    AdminBaseView._get_view_url (some adminDefault) false (some "records")
      (some "oai") = Except.ok "/administration/oai" := by decide

/-- The search configuration a resource's service carries
(`resource.service.config.search`), read by the list view's fallbacks. -/
structure SearchOptions where
  sort_options : List (String × String)
  facets : List (String × String)
deriving DecidableEq, Repr

/-- `resource.service.config`. -/
structure ServiceConfig where
  search : SearchOptions
deriving DecidableEq, Repr

/-- A marshmallow schema class, kept opaque (identified by name). -/
structure SchemaCls where
  ident : String
deriving DecidableEq, Repr

/-- The schema wrapper on a service: `service.schema.schema()` returns the
actual schema class (`base.py` 177-180). -/
structure ServiceSchema where
  schema : SchemaCls
deriving DecidableEq, Repr

/-- `resource.service`. -/
structure Service where
  config : ServiceConfig
  schema : ServiceSchema
deriving DecidableEq, Repr

/-- `resource.config`, read by `get_search_api_endpoint`. -/
structure ResourceConfig where
  blueprint_name : String
deriving DecidableEq, Repr

/-- The external resource object a resource-bound view renders UI for. -/
structure ResourceObj where
  service : Service
  config : ResourceConfig
deriving DecidableEq, Repr

/-- A flask extension object: its attributes that hold resources, as an
association list (`getattr` looks an attribute up by name). -/
structure ExtObj where
  attrs : List (String × ResourceObj)
deriving DecidableEq, Repr

/-- Python `getattr(ext, attr)` restricted to resource attributes:
`none` means the attribute is absent (an `AttributeError` at the call site). -/
def getattrRes (e : ExtObj) (attr : String) : Option ResourceObj :=
  (e.attrs.find? (fun p => p.1 == attr)).map (fun p => p.2)

/-- `current_app.extensions`, a dict from extension name to extension. -/
def extLookup (appExts : List (String × ExtObj)) (key : Option String) :
    Except PyExc ExtObj :=
  match key with
  | none => .error (.keyError "None")
  | some k =>
    match appExts.find? (fun p => p.1 == k) with
    | some p => .ok p.2
    | none => .error (.keyError k)

/-- Class-level attributes of an `AdminResourceBaseView` subclass
(`base.py` 125-133): the base attributes plus `resource_config`. -/
structure ResViewClassAttrs where
  base : ViewClassAttrs
  resource_config : Option String
deriving DecidableEq, Repr

namespace AdminResourceBaseView

/-- `AdminBaseView._get_view_extension` (`base.py` 81-86): a truthy
`extension` argument is looked up in `current_app.extensions`, else the
class-level `cls._extension` is (lookup of `None` is a `KeyError`). -/
def _get_view_extension (appExts : List (String × ExtObj))
    (clsExt : Option String) (extensionArg : Option String) :
    Except PyExc ExtObj :=
  if strTruthy extensionArg then extLookup appExts extensionArg
  else extLookup appExts clsExt

/-- `AdminResourceBaseView._get_resource` (`base.py` 168-174):
`getattr(extension, cls.resource_config)`; an absent attribute becomes
`InvalidResource(resource=cls.resource_config, view=cls.__name__)`. -/
def _get_resource (appExts : List (String × ExtObj)) (cls : ResViewClassAttrs)
    (extensionArg : Option String) : Except PyExc ResourceObj :=
  match _get_view_extension appExts cls.base._extension extensionArg with
  | .error e => .error e
  | .ok ext =>
    match cls.resource_config with
    | none => .error (.typeError "attribute name must be string, not NoneType")
    | some rc =>
      match getattrRes ext rc with
      | some r => .ok r
      | none => .error (.invalidResource rc cls.base.className)

/-- `AdminResourceBaseView.__init__` (`base.py` 135-156): runs the base
constructor, then raises when the resolved `self._extension` is `None`, then
when the class-level `resource_config` is `None`.  It performs no lookup of
the resource itself — `_get_resource` runs only from `set_resource`. -/
def init (cls : ResViewClassAttrs) (isDashboard : Bool)
    (nameArg categoryArg endpointArg urlArg extensionArg : Option String)
    (adminArg : Option Admin) : Except PyExc ViewInstance :=
  match AdminBaseView.init cls.base isDashboard nameArg categoryArg
      endpointArg urlArg extensionArg adminArg with
  | .error e => .error e
  | .ok inst =>
    if inst._extension.isNone then
      .error (.noExtension cls.base.className)
    else if cls.resource_config.isNone then
      .error (.noResourceConfig cls.base.className)
    else
      .ok inst

end AdminResourceBaseView

/-- `AdminResourceBaseView._get_service_schema` (`base.py` 176-180):
`cls.resource.service.schema.schema()`. -/
def _get_service_schema (resource : ResourceObj) : SchemaCls :=
  resource.service.schema.schema

/-- The keyword arguments `init_search_config` binds into
`functools.partial(search_app_config, ...)` (`base.py` 266-275).  The
partial object itself is opaque; what the view contributes is exactly this
record of bound arguments. -/
structure SearchAppConfigArgs where
  config_name : String
  available_facets : List (String × String)
  sort_options : List (String × String)
  endpoint : String
  headers : List (String × String)
deriving DecidableEq, Repr

/-- A value placed into a template rendering context. -/
inductive CtxVal where
  /-- a serialized (JSON-compatible) schema, kept as its serialized form -/
  | json (s : String)
  /-- a raw schema class (the list view passes the schema unserialized) -/
  | schemaV (s : SchemaCls)
  /-- a bound search-app configuration -/
  | search (c : SearchAppConfigArgs)
  /-- a columns declaration -/
  | cols (c : Option (List String))
  /-- a template path string -/
  | tmpl (s : String)
deriving DecidableEq, Repr

/-- One call to `flask.render_template`: the template plus the context
dict in insertion order. -/
structure RenderCall where
  template : String
  context : List (String × CtxVal)
deriving DecidableEq, Repr

/-- `AdminBaseView.render` (`base.py` 115-118): adds
`admin_base_template = self.administration.base_template` to the caller's
kwargs and renders `self._get_template()`. -/
def render (admin : Admin) (template : String)
    (kwargs : List (String × CtxVal)) : RenderCall :=
  { template := template,
    context := kwargs ++ [("admin_base_template", CtxVal.tmpl admin.base_template)] }

namespace AdminResourceDetailView

/-- `AdminResourceDetailView.get` (`base.py` 211-217).  `serialize` stands
for `jsonify_schema` (an external utility applied by `_schema_to_json`);
`pid_value` is the item identifier argument.  The render kwargs are exactly
`schema = serialize_schema`. -/
def get (admin : Admin) (resource : ResourceObj)
    (serialize : SchemaCls → String) (pid_value : Option String) : RenderCall :=
  let schema := _get_service_schema resource
  let serialize_schema := serialize schema
  render admin "invenio_administration/details.html"
    [("schema", CtxVal.json serialize_schema)]

end AdminResourceDetailView

/-- Class-level attributes of an `AdminResourceListView` subclass that its
search-configuration methods read (`base.py` 220-238), with `name` the
instance's resolved `self.name`. -/
structure ListViewAttrs where
  name : Option String
  search_config_name : Option String
  search_facets_config_name : Option String
  search_sort_config_name : Option String
  sort_options : List (String × String)
  available_facets : List (String × String)
  search_api_endpoint : Option String
  search_request_headers : List (String × String)
  columns : Option (List String)
deriving DecidableEq, Repr

/-- The class-level default `search_request_headers` (`base.py` 238). -/
def defaultSearchRequestHeaders : List (String × String) :=
  [("Accept", "application/vnd.inveniordm.v1+json")]

/-- `current_app.config`, a dict whose values here are facet/sort dicts;
lookup by a `None` name or an absent name is a `KeyError`. -/
def configLookup (appConfig : List (String × List (String × String)))
    (key : Option String) : Except PyExc (List (String × String)) :=
  match key with
  | none => .error (.keyError "None")
  | some k =>
    match appConfig.find? (fun p => p.1 == k) with
    | some p => .ok p.2
    | none => .error (.keyError k)

namespace AdminResourceListView

/-- `get_search_request_headers` (`base.py` 240-242). -/
def get_search_request_headers (cls : ListViewAttrs) : List (String × String) :=
  cls.search_request_headers

/-- `get_search_app_name` (`base.py` 244-248): when `search_config_name` is
`None`, `f"{self.name.upper()}_SEARCH"` (an `AttributeError` when `self.name`
is `None`). -/
def get_search_app_name (cls : ListViewAttrs) : Except PyExc String :=
  match cls.search_config_name with
  | none =>
    match cls.name with
    | none => .error (.attributeError "NoneType has no attribute upper")
    | some n => .ok (pyUpper n ++ "_SEARCH")
  | some c => .ok c

/-- `get_search_api_endpoint` (`base.py` 250-264).  `apiRules` stands for
the mounted API application's `url_map._rules_by_endpoint`, mapping an
endpoint name to its first rule string; a truthy `search_api_endpoint`
short-circuits the lookup. -/
def get_search_api_endpoint (cls : ListViewAttrs) (resource : ResourceObj)
    (apiRules : List (String × String)) : Except PyExc String :=
  let blueprint_name := resource.config.blueprint_name ++ ".search"
  if strTruthy cls.search_api_endpoint then
    .ok (cls.search_api_endpoint.getD "")
  else
    match apiRules.find? (fun p => p.1 == blueprint_name) with
    | some p => .ok ("/api/" ++ p.2)
    | none => .error (.keyError blueprint_name)

/-- `init_search_config` (`base.py` 266-275): binds into the partial the
search app name, `current_app.config[self.search_facets_config_name]`,
`current_app.config[self.search_sort_config_name]`, the API endpoint and
the request headers — evaluated in that keyword order. -/
def init_search_config (cls : ListViewAttrs) (resource : ResourceObj)
    (appConfig : List (String × List (String × String)))
    (apiRules : List (String × String)) : Except PyExc SearchAppConfigArgs :=
  match get_search_app_name cls with
  | .error e => .error e
  | .ok cname =>
    match configLookup appConfig cls.search_facets_config_name with
    | .error e => .error e
    | .ok facets =>
      match configLookup appConfig cls.search_sort_config_name with
      | .error e => .error e
      | .ok sorts =>
        match get_search_api_endpoint cls resource apiRules with
        | .error e => .error e
        | .ok endpoint =>
          .ok { config_name := cname, available_facets := facets,
                sort_options := sorts, endpoint := endpoint,
                headers := get_search_request_headers cls }

/-- `get_sort_options` (`base.py` 277-281): `if not self.sort_options:`
falls back to `self.resource.service.config.search.sort_options`. -/
def get_sort_options (cls : ListViewAttrs) (resource : ResourceObj) :
    List (String × String) :=
  if cls.sort_options.isEmpty then resource.service.config.search.sort_options
  else cls.sort_options

/-- `get_available_facets` (`base.py` 283-287): `if not self.available_facets:`
falls back to `self.resource.service.config.search.facets`. -/
def get_available_facets (cls : ListViewAttrs) (resource : ResourceObj) :
    List (String × String) :=
  if cls.available_facets.isEmpty then resource.service.config.search.facets
  else cls.available_facets

/-- `AdminResourceListView.get` (`base.py` 289-299). -/
def get (admin : Admin) (cls : ListViewAttrs) (resource : ResourceObj)
    (appConfig : List (String × List (String × String)))
    (apiRules : List (String × String)) : Except PyExc RenderCall :=
  match init_search_config cls resource appConfig apiRules with
  | .error e => .error e
  | .ok search_conf =>
    let schema := _get_service_schema resource
    .ok (render admin "invenio_administration/search.html"
      [("search_config", CtxVal.search search_conf),
       ("resource_schema", CtxVal.schemaV schema),
       ("columns", CtxVal.cols cls.columns)])

end AdminResourceListView

/-- An opaque view callable (the result of `View.as_view(...)`). -/
structure ViewCallable where
  id : Nat
deriving DecidableEq, Repr

/-- The mutable state of an `Administration` registry that `add_view`
touches (`admin.py`): the internal `_views` list, the blueprint's URL
rules (url, bound callable) and the calls forwarded to the menu registry
(`AdminMenu.add_view_to_menu`), each in call order. -/
structure AdministrationState where
  views : List ViewCallable
  blueprint_rules : List (String × ViewCallable)
  menu : List ViewInstance
deriving DecidableEq, Repr

namespace Administration

/-- `Administration.add_view` (`admin.py` 83-88): appends the callable to
`self._views`, calls `self.blueprint.add_url_rule(view_instance.url,
view_func=view)` and forwards `view_instance` to the menu registry. -/
def add_view (st : AdministrationState) (view : ViewCallable)
    (view_instance : ViewInstance) : AdministrationState :=
  { views := st.views ++ [view],
    blueprint_rules := st.blueprint_rules ++ [(view_instance.url, view)],
    menu := st.menu ++ [view_instance] }

end Administration

/-! ## Concrete fixtures used by witnesses and counterexamples -/

/-- A dashboard view class: `name` set, everything else defaulted. -/
def dashboardCls : ViewClassAttrs :=
  { _extension := some "invenio-administration", name := some "Dashboard",
    category := none, endpoint := none, url := none, hasGet := true,
    className := "AdminDashboardView" }

/-- A plain non-dashboard view class. -/
def recordsCls : ViewClassAttrs :=
  { _extension := some "invenio-rdm-records", name := some "Records",
    category := none, endpoint := none, url := none, hasGet := true,
    className := "RecordsListView" }

/-- A view class whose class-level `url` is relative. -/
def oaiCls : ViewClassAttrs :=
  { _extension := some "invenio-rdm-records", name := some "Oai",
    category := none, endpoint := none, url := some "oai", hasGet := true,
    className := "OaiView" }

/-- A view subclass whose `get` attribute is `None`. -/
def brokenCls : ViewClassAttrs :=
  { _extension := some "invenio-rdm-records", name := some "Broken",
    category := none, endpoint := none, url := none, hasGet := false,
    className := "BrokenView" }

/-- A resource-bound view class naming an attribute its extension lacks. -/
def resViewCls0 : ResViewClassAttrs :=
  { base := { _extension := some "my-ext", name := some "OaiPmh",
              category := none, endpoint := none, url := none, hasGet := true,
              className := "OaiPmhListView" },
    resource_config := some "records_resource" }

/-- An extension registry whose `"my-ext"` extension has no attributes. -/
def extRegistry0 : List (String × ExtObj) := [("my-ext", { attrs := [] })]

/-- A concrete resource with service-level search configuration. -/
def res0 : ResourceObj :=
  { service := { config := { search := { sort_options := [("svc_sort", "s")],
                                         facets := [("svc_facet", "f")] } },
                 schema := { schema := { ident := "RecordSchema" } } },
    config := { blueprint_name := "records" } }

/-- A serializer standing for `jsonify_schema`. -/
def ser0 : SchemaCls → String := fun s => "json:" ++ s.ident

/-- A list view class declaring non-empty facets and sort options of its
own, next to config names for the search assembly. -/
def listCls6 : ListViewAttrs :=
  { name := some "Records", search_config_name := some "RECORDS_APP",
    search_facets_config_name := some "RECORDS_FACETS",
    search_sort_config_name := some "RECORDS_SORT",
    sort_options := [("declared_sort", "d")],
    available_facets := [("declared_facet", "d")],
    search_api_endpoint := some "/api/records",
    search_request_headers := defaultSearchRequestHeaders, columns := none }

/-- A list view class with the default (empty) facet/sort declarations. -/
def listClsEmpty : ListViewAttrs :=
  { name := some "Records", search_config_name := none,
    search_facets_config_name := none, search_sort_config_name := none,
    sort_options := [], available_facets := [],
    search_api_endpoint := none,
    search_request_headers := defaultSearchRequestHeaders, columns := none }

/-- The application config holding the facet/sort dicts `init_search_config`
reads. -/
def appConfig6 : List (String × List (String × String)) :=
  [("RECORDS_FACETS", [("cfg_facet", "c")]),
   ("RECORDS_SORT", [("cfg_sort", "c")])]

/-- The instance produced by constructing `dashboardCls` with no url
argument. -/
def dashInst : ViewInstance :=
  { _extension := some "invenio-administration", name := some "Dashboard",
    category := none, administration := some adminDefault,
    endpoint := some "dashboard", url := "/",
    className := "AdminDashboardView" }

/-- The instance produced by constructing `oaiCls` with no url argument. -/
def oaiInst : ViewInstance :=
  { _extension := some "invenio-rdm-records", name := some "Oai",
    category := none, administration := some adminDefault,
    endpoint := some "oai", url := "/administration/oai",
    className := "OaiView" }

/-- A registered instance with no registry back-reference. -/
def detachedInst : ViewInstance :=
  { _extension := none, name := some "Dash", category := none,
    administration := none, endpoint := some "dash", url := "/",
    className := "Dash" }

/-- A registered instance holding a registry back-reference. -/
def attachedInst : ViewInstance :=
  { _extension := none, name := some "Records", category := none,
    administration := some adminDefault, endpoint := some "records",
    url := "/records", className := "RecordsListView" }

/-- A small registry state with one registered view. -/
def st0 : AdministrationState :=
  { views := [⟨0⟩], blueprint_rules := [("/", ⟨0⟩)], menu := [detachedInst] }

/-! ## C1 -/

/-- C1, as stated, is false: the claim says a dashboard-class instance
resolves to URL `/` regardless of any url argument, but
`self.url = url or self._get_view_url(self.url)` takes a truthy url
argument verbatim, so the dashboard constructed with `url="/custom"` ends
at `/custom`, not `/`. -/
theorem C1_counterexample :
    (AdminBaseView.init dashboardCls true
        (some "invenio_administration.views.base") none none (some "/custom")
        none (some adminDefault)).map (fun i => i.url) = Except.ok "/custom" ∧
    ("/custom" : String) ≠ "/" := by decide

/-- C1 (amended): a dashboard-class instance constructed without a truthy
url argument, from a class whose class-level `url` is `None`, resolves to
URL `/`; a truthy url argument is used verbatim instead. -/
theorem C1_theorem (cls : ViewClassAttrs)
    (nameArg categoryArg endpointArg urlArg extensionArg : Option String)
    (a : Admin) (inst : ViewInstance)
    (hurl : strTruthy urlArg = false) (hcls : cls.url = none)
    (h : AdminBaseView.init cls true nameArg categoryArg endpointArg urlArg
          extensionArg (some a) = .ok inst) :
    inst.url = "/" := by
  simp only [AdminBaseView.init, hurl, hcls, AdminBaseView._get_view_url,
    Bool.false_eq_true, if_false, if_true, reduceIte] at h
  split at h
  · exact absurd h (by simp)
  · split at h
    · injection h with h'
      rw [← h']
    · exact absurd h (by simp)

/-- C1 witness: the dashboard constructed the way `_add_dashboard_view`
constructs it really lands at `/`. -/
theorem C1_witness : dashInst.url = "/" :=
  C1_theorem dashboardCls (some "invenio_administration.views.base") none
    none none none adminDefault dashInst rfl rfl (by decide)

/-! ## C3 -/

/-- C3: a view subclass whose `get` attribute is `None` fails to
instantiate, with the error carrying the subclass name — provided name
resolution yields a string (the constructor's default always does) and a
registry back-reference is given, so that no earlier error preempts it. -/
theorem C3_theorem (cls : ViewClassAttrs) (isDashboard : Bool)
    (nameArg categoryArg endpointArg urlArg extensionArg : Option String)
    (a : Admin) (n : String)
    (hget : cls.hasGet = false)
    (hname : resolveAttr cls.name nameArg = some n) :
    AdminBaseView.init cls isDashboard nameArg categoryArg endpointArg urlArg
      extensionArg (some a) = .error (.noGetView cls.className) := by
  have hep : ∃ ep, AdminBaseView._get_endpoint (resolveAttr cls.name nameArg)
      cls.endpoint endpointArg = .ok ep := by
    rw [hname]
    unfold AdminBaseView._get_endpoint
    split
    · exact ⟨endpointArg, rfl⟩
    · split
      · exact ⟨some (pyLower n), rfl⟩
      · exact ⟨none, rfl⟩
  obtain ⟨ep, hep⟩ := hep
  have hu : ∃ u, (if strTruthy urlArg then Except.ok (urlArg.getD "")
      else AdminBaseView._get_view_url (some a) isDashboard ep cls.url :
      Except PyExc String) = .ok u := by
    split
    · exact ⟨urlArg.getD "", rfl⟩
    · unfold AdminBaseView._get_view_url
      match cls.url with
      | none =>
        cases isDashboard
        · exact ⟨"/" ++ pyStr ep, rfl⟩
        · exact ⟨"/", rfl⟩
      | some u =>
        by_cases hsw : pyStartsWith u "/"
        · exact ⟨u, by simp [hsw]⟩
        · exact ⟨a.url ++ "/" ++ u, by simp [hsw]⟩
  obtain ⟨u, hu⟩ := hu
  simp only [AdminBaseView.init, hep, hu, hget, Bool.false_eq_true, if_false,
    reduceIte]

/-- C3 witness: a concrete GET-less subclass fails at construction with the
error naming `BrokenView`. -/
theorem C3_witness :
    AdminBaseView.init brokenCls false
      (some "invenio_administration.views.base") none none none none
      (some adminDefault) = .error (.noGetView "BrokenView") :=
  C3_theorem brokenCls false (some "invenio_administration.views.base") none
    none none none adminDefault "Broken" rfl rfl

/-! ## C4 -/

/-- C4, as stated, is false: with no endpoint argument but a truthy
class-level `endpoint`, `_get_endpoint` falls off the end and returns
`None` — not the lower-cased name. -/
theorem C4_counterexample :
    AdminBaseView._get_endpoint (some "MyView") (some "preset") none =
      Except.ok none ∧
    (Except.ok none : Except PyExc (Option String)) ≠
      Except.ok (some (pyLower "MyView")) := by decide

/-- C4 (amended): a truthy endpoint argument is returned as given; with a
falsy argument, the lower-cased name is returned only when the class-level
endpoint is falsy too, and otherwise the function returns `None`. -/
theorem C4_theorem (name clsEndpoint endpointArg : Option String) (n : String) :
    (strTruthy endpointArg = true →
      AdminBaseView._get_endpoint name clsEndpoint endpointArg =
        .ok endpointArg) ∧
    (strTruthy endpointArg = false → strTruthy clsEndpoint = false →
      name = some n →
      AdminBaseView._get_endpoint name clsEndpoint endpointArg =
        .ok (some (pyLower n))) ∧
    (strTruthy endpointArg = false → strTruthy clsEndpoint = true →
      AdminBaseView._get_endpoint name clsEndpoint endpointArg = .ok none) := by
  refine ⟨fun h1 => ?_, fun h1 h2 h3 => ?_, fun h1 h2 => ?_⟩
  · simp [AdminBaseView._get_endpoint, h1]
  · simp [AdminBaseView._get_endpoint, h1, h2, h3]
  · simp [AdminBaseView._get_endpoint, h1, h2]

/-- C4 witness: the three endpoint-resolution behaviors at concrete
inputs. -/
theorem C4_witness :
    AdminBaseView._get_endpoint (some "MyView") none (some "custom") =
      Except.ok (some "custom") ∧
    AdminBaseView._get_endpoint (some "MyView") none none =
      Except.ok (some (pyLower "MyView")) ∧
    AdminBaseView._get_endpoint (some "MyView") (some "preset") none =
      Except.ok none :=
  ⟨(C4_theorem (some "MyView") none (some "custom") "MyView").1 rfl,
   (C4_theorem (some "MyView") none none "MyView").2.1 rfl rfl rfl,
   (C4_theorem (some "MyView") (some "preset") none "MyView").2.2 rfl rfl⟩

/-! ## C5 -/

/-- C5, as stated, is false: a relative url *argument* is not rewritten
under the registry url — `self.url = url or ...` keeps a truthy argument
verbatim, so a non-dashboard view constructed with `url="records"` ends at
`records`, not `/administration/records`. -/
theorem C5_counterexample :
    (AdminBaseView.init recordsCls false
        (some "invenio_administration.views.base") none none (some "records")
        none (some adminDefault)).map (fun i => i.url) =
      Except.ok "records" ∧
    ("records" : String) ≠ "/administration/records" := by decide

/-- C5 (amended): a truthy url argument is used verbatim whether or not it
starts with `/`; the registry-prefix rewriting applies to the class-level
`url` attribute when the url argument is falsy: a relative class-level url
becomes `<registry-url>/<class-url>` and an absolute one is verbatim. -/
theorem C5_theorem (cls : ViewClassAttrs) (isDashboard : Bool)
    (nameArg categoryArg endpointArg urlArg extensionArg : Option String)
    (a : Admin) (inst : ViewInstance) (u : String) :
    (strTruthy urlArg = true →
      AdminBaseView.init cls isDashboard nameArg categoryArg endpointArg
        urlArg extensionArg (some a) = .ok inst →
      inst.url = urlArg.getD "") ∧
    (strTruthy urlArg = false → cls.url = some u →
      pyStartsWith u "/" = false →
      AdminBaseView.init cls isDashboard nameArg categoryArg endpointArg
        urlArg extensionArg (some a) = .ok inst →
      inst.url = a.url ++ "/" ++ u) ∧
    (strTruthy urlArg = false → cls.url = some u →
      pyStartsWith u "/" = true →
      AdminBaseView.init cls isDashboard nameArg categoryArg endpointArg
        urlArg extensionArg (some a) = .ok inst →
      inst.url = u) := by
  refine ⟨fun h1 h => ?_, fun h1 h2 h3 h => ?_, fun h1 h2 h3 h => ?_⟩
  · simp only [AdminBaseView.init, h1, reduceIte] at h
    split at h
    · exact absurd h (by simp)
    · split at h
      · injection h with h'
        rw [← h']
      · exact absurd h (by simp)
  · simp only [AdminBaseView.init, h1, h2, AdminBaseView._get_view_url, h3,
      Bool.false_eq_true, reduceIte] at h
    split at h
    · exact absurd h (by simp)
    · split at h
      · injection h with h'
        rw [← h']
      · exact absurd h (by simp)
  · simp only [AdminBaseView.init, h1, h2, AdminBaseView._get_view_url, h3,
      Bool.false_eq_true, reduceIte] at h
    split at h
    · exact absurd h (by simp)
    · split at h
      · injection h with h'
        rw [← h']
      · exact absurd h (by simp)

/-- C5 witness: a relative class-level url really is rewritten under the
registry url prefix. -/
theorem C5_witness : oaiInst.url = adminDefault.url ++ "/" ++ "oai" :=
  (C5_theorem oaiCls false (some "invenio_administration.views.base") none
    none none none adminDefault oaiInst "oai").2.1 rfl rfl rfl (by decide)

/-! ## C2 -/

/-- C2, as stated, is false: `AdminResourceBaseView.__init__` only checks
that `resource_config` and `_extension` are not `None`; it never touches the
extension's attributes, so instantiating a view whose `resource_config`
names an attribute absent on its extension succeeds.  The
`InvalidResource` error (with both names) is raised only by
`_get_resource`, i.e. when `set_resource` is called later. -/
theorem C2_counterexample :
    AdminResourceBaseView.init resViewCls0 false
        (some "invenio_administration.views.base") none none none none
        (some adminDefault) =
      Except.ok
        { _extension := some "my-ext", name := some "OaiPmh",
          category := none, administration := some adminDefault,
          endpoint := some "oaipmh", url := "/oaipmh",
          className := "OaiPmhListView" } ∧
    AdminResourceBaseView._get_resource extRegistry0 resViewCls0 none =
      Except.error (PyExc.invalidResource "records_resource"
        "OaiPmhListView") := by decide

/-- C2 (amended): it is resource resolution (`_get_resource`, invoked via
`set_resource`), not instantiation, that raises `InvalidResource` when the
`resource_config` attribute is absent on the extension — and the raised
error carries the resource name and the view's class name. -/
theorem C2_theorem (appExts : List (String × ExtObj))
    (cls : ResViewClassAttrs) (extensionArg : Option String) (ext : ExtObj)
    (rc : String)
    (hext : AdminResourceBaseView._get_view_extension appExts
        cls.base._extension extensionArg = .ok ext)
    (hrc : cls.resource_config = some rc)
    (habsent : getattrRes ext rc = none) :
    AdminResourceBaseView._get_resource appExts cls extensionArg =
      .error (.invalidResource rc cls.base.className) := by
  simp [AdminResourceBaseView._get_resource, hext, hrc, habsent]

/-- C2 witness: the concrete misconfigured view yields the named error with
both diagnostics when its resource is resolved. -/
theorem C2_witness :
    AdminResourceBaseView._get_resource extRegistry0 resViewCls0 none =
      Except.error (PyExc.invalidResource "records_resource"
        "OaiPmhListView") :=
  C2_theorem extRegistry0 resViewCls0 none ⟨[]⟩ "records_resource"
    (by decide) rfl rfl

/-! ## C6 -/

/-- C6, as stated, is false: the search configuration assembled by
`init_search_config` takes its facets and sort options from
`current_app.config[...]`, even when the view declares non-empty
`available_facets` / `sort_options` of its own — the declared-else-service
fallback lives in `get_available_facets` / `get_sort_options`, which the
assembly never calls. -/
theorem C6_counterexample :
    AdminResourceListView.init_search_config listCls6 res0 appConfig6 [] =
      Except.ok
        { config_name := "RECORDS_APP",
          available_facets := [("cfg_facet", "c")],
          sort_options := [("cfg_sort", "c")],
          endpoint := "/api/records",
          headers := defaultSearchRequestHeaders } ∧
    [("cfg_facet", "c")] ≠ listCls6.available_facets ∧
    [("cfg_sort", "c")] ≠ listCls6.sort_options := by decide

/-- C6 (amended): the assembled search configuration consists of the search
app name, the application-config entries under the view's
`search_facets_config_name` and `search_sort_config_name`, the resolved API
endpoint, and the view's request headers — not the view-declared
facet/sort mappings. -/
theorem C6_theorem (cls : ListViewAttrs) (resource : ResourceObj)
    (appConfig : List (String × List (String × String)))
    (apiRules : List (String × String)) (cname endpoint : String)
    (facets sorts : List (String × String))
    (h1 : AdminResourceListView.get_search_app_name cls = .ok cname)
    (h2 : configLookup appConfig cls.search_facets_config_name = .ok facets)
    (h3 : configLookup appConfig cls.search_sort_config_name = .ok sorts)
    (h4 : AdminResourceListView.get_search_api_endpoint cls resource
        apiRules = .ok endpoint) :
    AdminResourceListView.init_search_config cls resource appConfig
        apiRules =
      .ok { config_name := cname, available_facets := facets,
            sort_options := sorts, endpoint := endpoint,
            headers := cls.search_request_headers } := by
  simp [AdminResourceListView.init_search_config, h1, h2, h3, h4,
    AdminResourceListView.get_search_request_headers]

/-- C6 witness: assembling the concrete list view's search configuration
produces exactly the application-config values. -/
theorem C6_witness :
    AdminResourceListView.init_search_config listCls6 res0 appConfig6 [] =
      Except.ok
        { config_name := "RECORDS_APP",
          available_facets := [("cfg_facet", "c")],
          sort_options := [("cfg_sort", "c")],
          endpoint := "/api/records",
          headers := defaultSearchRequestHeaders } :=
  C6_theorem listCls6 res0 appConfig6 [] "RECORDS_APP" "/api/records"
    [("cfg_facet", "c")] [("cfg_sort", "c")] rfl (by decide) (by decide) rfl

/-! ## C7 -/

/-- C7, as stated, is false: the detail view's GET renders only the
serialized schema — the item identifier never reaches the template context,
as two requests with different identifiers produce identical renders, and
the full context of a concrete request shows no identifier entry. -/
theorem C7_counterexample :
    AdminResourceDetailView.get adminDefault res0 ser0 (some "1234-abcd") =
      AdminResourceDetailView.get adminDefault res0 ser0 (some "9999-zzzz") ∧
    AdminResourceDetailView.get adminDefault res0 ser0 (some "1234-abcd") =
      { template := "invenio_administration/details.html",
        context :=
          [("schema", CtxVal.json "json:RecordSchema"),
           ("admin_base_template",
            CtxVal.tmpl "invenio_administration/base.html")] } := by decide

/-- C7 (amended): the detail view's GET fetches the resource's service
schema, serializes it, and renders the details template with that
serialized schema (plus the base template added by `render`); the
identifier argument is accepted but does not appear in the render. -/
theorem C7_theorem (admin : Admin) (resource : ResourceObj)
    (serialize : SchemaCls → String) (pid_value : Option String) :
    AdminResourceDetailView.get admin resource serialize pid_value =
      render admin "invenio_administration/details.html"
        [("schema", CtxVal.json (serialize (_get_service_schema resource)))] ∧
    AdminResourceDetailView.get admin resource serialize pid_value =
      AdminResourceDetailView.get admin resource serialize none :=
  ⟨rfl, rfl⟩

/-! ## C8 -/

/-- C8: `add_view` appends the callable to the internal view list — the
list grows by exactly one and every earlier entry is unchanged in place —
appends the rule binding the instance's url to the callable in the
blueprint, and forwards the instance to the menu registry. -/
theorem C8_theorem (st : AdministrationState) (view : ViewCallable)
    (vi : ViewInstance) :
    (Administration.add_view st view vi).views = st.views ++ [view] ∧
    (Administration.add_view st view vi).views.length =
      st.views.length + 1 ∧
    (∀ i, i < st.views.length →
      (Administration.add_view st view vi).views[i]? = st.views[i]?) ∧
    (vi.url, view) ∈ (Administration.add_view st view vi).blueprint_rules ∧
    (Administration.add_view st view vi).blueprint_rules =
      st.blueprint_rules ++ [(vi.url, view)] ∧
    (Administration.add_view st view vi).menu = st.menu ++ [vi] := by
  refine ⟨rfl, by simp [Administration.add_view], fun i hi => ?_, ?_, rfl,
    rfl⟩
  · simp [Administration.add_view, List.getElem?_append, hi]
  · simp [Administration.add_view]

/-- C8 witness: registering one more view in a one-view registry keeps the
first view at index 0 and binds the new callable. -/
theorem C8_witness :
    (Administration.add_view st0 ⟨1⟩ detachedInst).views[0]? =
      st0.views[0]? ∧
    (detachedInst.url, (⟨1⟩ : ViewCallable)) ∈
      (Administration.add_view st0 ⟨1⟩ detachedInst).blueprint_rules :=
  ⟨(C8_theorem st0 ⟨1⟩ detachedInst).2.2.1 0 (by decide),
   (C8_theorem st0 ⟨1⟩ detachedInst).2.2.2.1⟩

/-! ## C9 -/

/-- C9: `endpoint_location_name` is `<registry-endpoint>.<view-endpoint>`
when the instance holds a registry back-reference and the bare view
endpoint when `administration` is `None`. -/
theorem C9_theorem (inst : ViewInstance) (a : Admin) (e : String) :
    (inst.administration = none →
      AdminBaseView.endpoint_location_name inst = inst.endpoint) ∧
    (inst.administration = some a → inst.endpoint = some e →
      AdminBaseView.endpoint_location_name inst =
        some (a.endpoint ++ "." ++ e)) := by
  refine ⟨fun h => ?_, fun h h2 => ?_⟩
  · simp [AdminBaseView.endpoint_location_name, h]
  · simp [AdminBaseView.endpoint_location_name, h, h2, pyStr]

/-- C9 witness: both shapes at concrete instances. -/
theorem C9_witness :
    AdminBaseView.endpoint_location_name detachedInst =
      detachedInst.endpoint ∧
    AdminBaseView.endpoint_location_name attachedInst =
      some ("administration" ++ "." ++ "records") :=
  ⟨(C9_theorem detachedInst adminDefault "dash").1 rfl,
   (C9_theorem attachedInst adminDefault "records").2 rfl rfl⟩

/-! ## C10 -/

/-- C10: an empty (including explicitly declared empty) `sort_options` or
`available_facets` mapping makes `get_sort_options` / `get_available_facets`
return the resource's service-level configuration, while a non-empty
declared mapping is returned unchanged. -/
theorem C10_theorem (cls : ListViewAttrs) (resource : ResourceObj) :
    (cls.sort_options = [] →
      AdminResourceListView.get_sort_options cls resource =
        resource.service.config.search.sort_options) ∧
    (cls.sort_options ≠ [] →
      AdminResourceListView.get_sort_options cls resource =
        cls.sort_options) ∧
    (cls.available_facets = [] →
      AdminResourceListView.get_available_facets cls resource =
        resource.service.config.search.facets) ∧
    (cls.available_facets ≠ [] →
      AdminResourceListView.get_available_facets cls resource =
        cls.available_facets) := by
  refine ⟨fun h => ?_, fun h => ?_, fun h => ?_, fun h => ?_⟩ <;>
    simp [AdminResourceListView.get_sort_options,
      AdminResourceListView.get_available_facets, h,
      List.isEmpty_iff]

/-- C10 witness: the four fallback behaviors at concrete list views. -/
theorem C10_witness :
    AdminResourceListView.get_sort_options listClsEmpty res0 =
      res0.service.config.search.sort_options ∧
    AdminResourceListView.get_available_facets listClsEmpty res0 =
      res0.service.config.search.facets ∧
    AdminResourceListView.get_sort_options listCls6 res0 =
      listCls6.sort_options ∧
    AdminResourceListView.get_available_facets listCls6 res0 =
      listCls6.available_facets :=
  ⟨(C10_theorem listClsEmpty res0).1 rfl,
   (C10_theorem listClsEmpty res0).2.2.1 rfl,
   (C10_theorem listCls6 res0).2.1 (by decide),
   (C10_theorem listCls6 res0).2.2.2 (by decide)⟩
